import Mathlib

/-!
Verification of the pymeasure Keithley 2450 / Keithley 6221 drivers
(`src/pymeasure/instruments/keithley/keithley2450.py` and
`src/pymeasure/instruments/keithley/keithley6221.py`) against their
natural-language specification.

Python floats are embedded as exact rationals (`Rat`); SCPI traffic is
embedded as a `Device` state holding the queued replies and the log of
command strings written.  The property-factory machinery
(`Instrument.control` / `Instrument.measurement`), the validator library
and the error taxonomy live in the pymeasure core, which is not part of
the source tree under verification; those parts are modelled from the
spec (sections 4.1, 4.2 and 7) and are marked `Modelled from the spec:`
in their doc comments.  Everything else is translated directly from the
two driver files.
-/

/-- Modelled from the spec: the error taxonomy of section 7
(`ValidationError`, `MappingError`, `ParseError`, `ReadOnlyError`,
`RangeException`) plus Python's built-in `ValueError` raised directly by
driver methods; the exception classes live in the pymeasure core, outside
the source tree. -/
inductive PyErr where
  | validationError
  | mappingError
  | parseError
  | readOnlyError
  | rangeException
  | valueError (msg : String)
deriving DecidableEq, Repr

/-- A Python value as it flows through the property pipeline: floats are
exact rationals, plus integers, strings and booleans. -/
inductive PyVal where
  | num (q : Rat)
  | int (n : Int)
  | str (s : String)
  | bool (b : Bool)
deriving DecidableEq, Repr

deriving instance DecidableEq for Except

/-- The instrument as seen through the transport adapter (spec section 6):
a queue of pending ASCII replies and the ordered log of command strings
sent to the hardware. -/
structure Device where
  replies : List String
  writes : List String
deriving DecidableEq, Repr

/-- Send one command string to the instrument (spec: `write(command)`). -/
def Device.push (d : Device) (cmd : String) : Device :=
  { d with writes := d.writes ++ [cmd] }

/-- Issue a query and consume the next queued reply
(spec: `ask(command) -> str`).  The query itself is also one sent command. -/
def Device.query (d : Device) (q : String) : Option String × Device :=
  match d.replies with
  | [] => (none, d.push q)
  | r :: rs => (some r, { replies := rs, writes := d.writes ++ [q] })

/-! ### Python `%` string formatting

The drivers format wire values into their SCPI write templates with
`%g`, `%d`, `%s` and `%.3f`.  The formatters below implement the C/Python
semantics on exact rationals, working on numerator and denominator so
that every concrete instance evaluates inside the kernel. -/

/-- Decimal digit count of a natural number (1 for 0). -/
def decDigits (n : Nat) : Nat := (Nat.toDigits 10 n).length

/-- The decimal exponent of the positive fraction `n / d`: the unique `e`
with `10^e ≤ n/d < 10^(e+1)`. -/
def decExpND (n d : Nat) : Int :=
  let e0 : Int := (decDigits n : Int) - (decDigits d : Int)
  if (if 0 ≤ e0 then 10 ^ e0.toNat * d ≤ n else d ≤ n * 10 ^ (-e0).toNat)
  then e0 else e0 - 1

/-- `round(num / den)` with ties to even, as IEEE/C printf rounding does. -/
def roundHalfEvenDiv (num den : Nat) : Nat :=
  let q := num / den
  let r := num % den
  if 2 * r < den then q
  else if den < 2 * r then q + 1
  else if q % 2 = 0 then q else q + 1

/-- The first six significant decimal digits of `n / d` (as a natural
number in `[10^5, 10^6]`), where `e` is the decimal exponent of `n / d`. -/
def sig6 (n d : Nat) (e : Int) : Nat :=
  if e ≤ 5 then roundHalfEvenDiv (n * 10 ^ (5 - e).toNat) d
  else roundHalfEvenDiv n (d * 10 ^ (e - 5).toNat)

/-- Remove trailing `'0'` characters. -/
def stripZeros (cs : List Char) : List Char :=
  (cs.reverse.dropWhile (fun c => c = '0')).reverse

/-- Lay out six significant digits `ds` in fixed notation with decimal
exponent `e ∈ [-4, 5]`, trailing zeros stripped. -/
def digitsFixed (ds : List Char) (e : Int) : List Char :=
  if 0 ≤ e then
    let ip := ds.take (e.toNat + 1)
    let fp := stripZeros (ds.drop (e.toNat + 1))
    ip ++ (if fp.isEmpty then [] else '.' :: fp)
  else
    '0' :: '.' :: (List.replicate (-e - 1).toNat '0' ++ stripZeros ds)

/-- Lay out six significant digits `ds` in exponent notation
(`1.05e+07` style) with decimal exponent `e`. -/
def digitsExp (ds : List Char) (e : Int) : List Char :=
  let fp := stripZeros (ds.drop 1)
  let ea := (toString e.natAbs).data
  ds.take 1 ++ (if fp.isEmpty then [] else '.' :: fp)
    ++ 'e' :: (if e < 0 then '-' else '+')
    :: (if ea.length < 2 then '0' :: ea else ea)

/-- Modelled from the spec: `%g`-style formatting — "no trailing zero
padding" (section 6) — i.e. C `printf` `%g` with precision 6 applied to
the exact rational value.  Fixed notation is used for exponents in
`[-4, 5]`, exponent notation outside, trailing zeros stripped. -/
def formatG (q : Rat) : String :=
  if q = 0 then "0"
  else
    let sign : List Char := if q < 0 then ['-'] else []
    let n := q.num.natAbs
    let d := q.den
    let e := decExpND n d
    let m := sig6 n d e
    let me : Nat × Int := if m = 10 ^ 6 then (10 ^ 5, e + 1) else (m, e)
    let ds := (toString me.1).data
    String.mk (sign ++ (if -4 ≤ me.2 ∧ me.2 ≤ 5 then digitsFixed ds me.2
                        else digitsExp ds me.2))

/-- Modelled from the spec: Python `%.3f` formatting of the exact rational
value — fixed notation with exactly three digits after the point. -/
def format3f (q : Rat) : String :=
  let sign : List Char := if q < 0 then ['-'] else []
  let m := roundHalfEvenDiv (q.num.natAbs * 1000) q.den
  let fp := (toString (m % 1000)).data
  String.mk (sign ++ (toString (m / 1000)).data
    ++ '.' :: (List.replicate (3 - fp.length) '0' ++ fp))

/-- Render a wire token for a `%g` placeholder. -/
def formatTokG : PyVal → String
  | .num q => formatG q
  | .int n => formatG (n : Rat)
  | .bool b => if b then "1" else "0"
  | .str s => s

/-- Render a wire token for a `%d` placeholder (Python truncates floats
toward zero; booleans print as `1` / `0`). -/
def formatTokD : PyVal → String
  | .num q => toString (q.num / (q.den : Int))
  | .int n => toString n
  | .bool b => if b then "1" else "0"
  | .str s => s

/-- Render a wire token for a `%.3f` placeholder. -/
def formatTokF : PyVal → String
  | .num q => format3f q
  | .int n => format3f (n : Rat)
  | .bool b => if b then "1.000" else "0.000"
  | .str s => s

/-- Render a wire token for a `%s` placeholder. -/
def formatTokS : PyVal → String
  | .num q => formatG q
  | .int n => toString n
  | .bool b => if b then "True" else "False"
  | .str s => s

/-- Substitute the single `%`-placeholder of a SCPI write template with the
rendered wire token, keeping every other byte of the template. -/
def fillT (tok : PyVal) : List Char → List Char
  | '%' :: '.' :: '3' :: 'f' :: rest => (formatTokF tok).data ++ rest
  | '%' :: 'g' :: rest => (formatTokG tok).data ++ rest
  | '%' :: 'd' :: rest => (formatTokD tok).data ++ rest
  | '%' :: 's' :: rest => (formatTokS tok).data ++ rest
  | c :: rest => c :: fillT tok rest
  | [] => []

/-- `template % token`, Python's interpolation of one wire token into a
SCPI command template. -/
def formatInto (template : String) (tok : PyVal) : String :=
  String.mk (fillT tok template.data)

/-! ### Validators (spec section 4.2)

The validator library is pymeasure core code, outside the source tree;
each validator is modelled from the spec's description. -/

/-- Modelled from the spec: `truncated_range(value, [low, high])` "clamps
value into `[low, high]`; never fails, always returns a value in range";
outside the interval "result is clamped to the nearest bound". -/
def truncated_range (v low high : Rat) : Rat :=
  if v < low then low else if high < v then high else v

/-- Modelled from the spec: `strict_range(value, [low, high])` "fails with
`ValidationError` if value falls strictly outside `[low, high]`; otherwise
passes through unchanged". -/
def strict_range (v low high : Rat) : Except PyErr Rat :=
  if low ≤ v ∧ v ≤ high then .ok v else .error .validationError

/-- Modelled from the spec: `strict_discrete_set(value, allowed)` "fails
with `ValidationError` unless value is a member of `allowed`". -/
def strict_discrete_set {α : Type} [DecidableEq α] (v : α) (allowed : List α) :
    Except PyErr α :=
  if v ∈ allowed then .ok v else .error .validationError

/-- Modelled from the spec: `joined_validators(v1, v2)` "applies `v1` with
its own domain, and if that fails, retries with `v2` and its own domain
... Fails only if both constituent validators fail."  The constituent
validators are passed already closed over their own domains. -/
def joined_validators (f g : PyVal → Except PyErr PyVal) (v : PyVal) :
    Except PyErr PyVal :=
  match f v with
  | .ok x => .ok x
  | .error _ => g v

/-- `strict_range` lifted to Python values: numbers are range-checked,
any non-numeric value is rejected (Python raises on the comparison). -/
def strict_rangeV (low high : Rat) (v : PyVal) : Except PyErr PyVal :=
  match v with
  | .num q => (strict_range q low high).map .num
  | .int n => (strict_range (n : Rat) low high).map (fun _ => .int n)
  | _ => .error .validationError

/-- `strict_discrete_set` lifted to Python values. -/
def strict_discrete_setV (allowed : List PyVal) (v : PyVal) :
    Except PyErr PyVal :=
  strict_discrete_set v allowed

/-- `truncated_range` lifted to Python values. -/
def truncated_rangeV (low high : Rat) (v : PyVal) : Except PyErr PyVal :=
  match v with
  | .num q => .ok (.num (truncated_range q low high))
  | .int n => .ok (.num (truncated_range (n : Rat) low high))
  | _ => .error .validationError

/-- The pymeasure default validator: pass every value through unchanged. -/
def no_validator (v : PyVal) : Except PyErr PyVal := .ok v

/-! ### The descriptor factory (spec section 4.1)

`Instrument.control` and `Instrument.measurement` are pymeasure core
code, outside the source tree; the get/set paths are modelled from the
spec. -/

/-- A `control` register descriptor: query command, write template,
validator (closed over its domain), and optional bidirectional value map
(spec section 3, "Register descriptor"). -/
structure Control where
  query : String
  write_template : String
  validator : PyVal → Except PyErr PyVal
  value_map : List (PyVal × PyVal)
  map_values : Bool

/-- Forward lookup in a value map: user value to wire token (Python dict
keys are unique, so first match is the match). -/
def lookupFwd : List (PyVal × PyVal) → PyVal → Option PyVal
  | [], _ => none
  | (a, b) :: rest, u => if a = u then some b else lookupFwd rest u

/-- Inverse lookup in a value map: wire token to user value (pymeasure
inverts the dict for the get path). -/
def lookupInv : List (PyVal × PyVal) → PyVal → Option PyVal
  | [], _ => none
  | (a, b) :: rest, t => if b = t then some a else lookupInv rest t

/-- Parse an ASCII reply: integer replies become `PyVal.int`, anything
else is kept as the raw string. -/
def parseDigitsAux : List Char → Nat → Option Nat
  | [], acc => some acc
  | c :: rest, acc =>
      if c.isDigit then parseDigitsAux rest (acc * 10 + (c.toNat - '0'.toNat))
      else none

/-- Parse an optional-sign decimal integer from a string. -/
def parseInt? (s : String) : Option Int :=
  match s.data with
  | [] => none
  | '-' :: rest =>
      if rest.isEmpty then none
      else (parseDigitsAux rest 0).map (fun n => -(n : Int))
  | cs => (parseDigitsAux cs 0).map (fun n => (n : Int))

/-- Modelled from the spec: parsing of the ASCII reply on the get path
(section 4.1) — the reply is cast to the expected type; integer wire
tokens are recovered as integers, other replies kept as raw strings. -/
def parseReply (s : String) : PyVal :=
  match parseInt? s with
  | some n => .int n
  | none => .str s

/-- Modelled from the spec: the set path of a `control` accessor
(section 4.1) — "apply `validator` ... fails with `ValidationError` if it
is outside range ... If `value_map` is present, translate user value →
wire token (fails with `MappingError` if absent from the map); format the
wire token into `write_template` and issue it."  A failed validation
aborts without side effects (section 7). -/
def controlSet (c : Control) (v : PyVal) (d : Device) :
    Except PyErr Unit × Device :=
  match c.validator v with
  | .error e => (.error e, d)
  | .ok x =>
    if c.map_values then
      match lookupFwd c.value_map x with
      | none => (.error .mappingError, d)
      | some tok => (.ok (), d.push (formatInto c.write_template tok))
    else (.ok (), d.push (formatInto c.write_template x))

/-- Modelled from the spec: the get path of a `control` accessor
(section 4.1) — "issue `query` ..., parse the ASCII reply, ... then apply
the inverse of `value_map` if present (wire token → user value)"; fails
with `MappingError` if the token is not in the map's range. -/
def controlGet (c : Control) (d : Device) : Except PyErr PyVal × Device :=
  match d.query c.query with
  | (none, d') => (.error .parseError, d')
  | (some r, d') =>
    let tok := parseReply r
    if c.map_values then
      match lookupInv c.value_map tok with
      | some u => (.ok u, d')
      | none => (.error .mappingError, d')
    else (.ok tok, d')

/-- A `measurement` register descriptor: read-only, query command only
(spec section 4.1). -/
structure Measurement where
  query : String

/-- Modelled from the spec: the get path of a `measurement` accessor —
"same get semantics as above, no set path". -/
def measurementGet (m : Measurement) (d : Device) :
    Except PyErr PyVal × Device :=
  match d.query m.query with
  | (none, d') => (.error .parseError, d')
  | (some r, d') => (.ok (parseReply r), d')

/-- Modelled from the spec: "attempting to set fails with
`ReadOnlyError`" (section 4.1) — the device is untouched. -/
def measurementSet (_m : Measurement) (_v : PyVal) (d : Device) :
    Except PyErr Unit × Device :=
  (.error .readOnlyError, d)

/-- `numpy.linspace(start, stop, num)`: `num` evenly spaced samples from
`start` to `stop`, both endpoints included. -/
def linspace (start stop : Rat) (num : Nat) : List Rat :=
  match num with
  | 0 => []
  | 1 => [start]
  | _ => (List.range num).map
      (fun i => start + (stop - start) * (i : Rat) / ((num - 1 : Nat) : Rat))

namespace Keithley2450

/-- From keithley2450.py lines 133-140: the `source_current_range`
control — query `:SOUR:CURR:RANG?`, write template
`:SOUR:CURR:RANG:AUTO 0;:SOUR:CURR:RANG %g`, validator `truncated_range`
over `[-1.05, 1.05]`, no value map. -/
def source_current_range : Control :=
  { query := ":SOUR:CURR:RANG?"
    write_template := ":SOUR:CURR:RANG:AUTO 0;:SOUR:CURR:RANG %g"
    validator := truncated_rangeV (-1.05) 1.05
    value_map := []
    map_values := false }

/-- From keithley2450.py lines 127-131: the `source_current` control —
query `:SOUR:CURR?`, write template `:SOUR:CURR:LEV %g`, no validator,
no value map. -/
def source_current : Control :=
  { query := ":SOUR:CURR?"
    write_template := ":SOUR:CURR:LEV %g"
    validator := no_validator
    value_map := []
    map_values := false }

/-- From keithley2450.py lines 152-158: the `source_current_delay_auto`
control — query `:SOUR:CURR:DEL:AUTO?`, write template
`:SOUR:CURR:DEL:AUTO %d`, no validator, value map `{True: 1, False: 0}`. -/
def source_current_delay_auto : Control :=
  { query := ":SOUR:CURR:DEL:AUTO?"
    write_template := ":SOUR:CURR:DEL:AUTO %d"
    validator := no_validator
    value_map := [(.bool true, .int 1), (.bool false, .int 0)]
    map_values := true }

/-- From keithley2450.py lines 254-263: the `wires` control — validator
`strict_discrete_set` over the map's keys, value map `{4: 1, 2: 0}`. -/
def wires : Control :=
  { query := ":SENS:RES:RSENSE?"
    write_template := ":SENS:RES:RSENSE %d"
    validator := strict_discrete_setV [.int 4, .int 2]
    value_map := [(.int 4, .int 1), (.int 2, .int 0)]
    map_values := true }

/-- From keithley2450.py lines 303-310: the `current_filter_type` control
— validator `strict_discrete_set` over `['REP', 'MOV']`, no value map. -/
def current_filter_type : Control :=
  { query := ":SENS:CURR:AVER:TCON?"
    write_template := ":SENS:CURR:AVER:TCON %s"
    validator := strict_discrete_setV [.str "REP", .str "MOV"]
    value_map := []
    map_values := false }

/-- From keithley2450.py lines 95-99: the read-only `current`
measurement, query `:READ?`. -/
def current : Measurement := { query := ":READ?" }

/-- From keithley2450.py lines 518-533: `ramp_to_current(target_current,
steps, pause)` — "Ramps to a target current from the set current value
over a certain number of linear steps".  The method first reads
`self.source_current` (passed here as `source_current_read`, the parsed
reply of the `:SOUR:CURR?` query), builds `np.linspace(read, target,
steps)`, and sets `self.source_current` to each point in order; each set
issues one `:SOUR:CURR:LEV %g` write.  `time.sleep(pause)` has no
observable effect on the command trace. -/
def ramp_to_current (source_current_read target_current : Rat)
    (steps : Nat) : List String :=
  (linspace source_current_read target_current steps).map
    (fun c => formatInto source_current.write_template (.num c))

/-- From keithley2450.py lines 557-560: `mean_voltage` is `self.means[0]`
applied to the parsed statistics reply. -/
def mean_voltage (means : List Rat) : Option Rat := means.get? 0

/-- From keithley2450.py lines 562-565: `max_voltage` is
`self.maximums[0]`. -/
def max_voltage (maximums : List Rat) : Option Rat := maximums.get? 0

/-- From keithley2450.py lines 567-570: `min_voltage` is
`self.minimums[0]`. -/
def min_voltage (minimums : List Rat) : Option Rat := minimums.get? 0

/-- From keithley2450.py lines 572-575: `std_voltage` is
`self.standard_devs[0]`. -/
def std_voltage (standard_devs : List Rat) : Option Rat := standard_devs.get? 0

/-- From keithley2450.py lines 577-580: `mean_current` is `self.means[1]`. -/
def mean_current (means : List Rat) : Option Rat := means.get? 1

/-- From keithley2450.py lines 582-585: `max_current` is
`self.maximums[1]`. -/
def max_current (maximums : List Rat) : Option Rat := maximums.get? 1

/-- From keithley2450.py lines 587-590: `min_current` is
`self.minimums[1]`. -/
def min_current (minimums : List Rat) : Option Rat := minimums.get? 1

/-- From keithley2450.py lines 592-595: `std_current` is
`self.standard_devs[1]`. -/
def std_current (standard_devs : List Rat) : Option Rat := standard_devs.get? 1

/-- From keithley2450.py lines 597-600: `mean_resistance` is
`self.means[2]`. -/
def mean_resistance (means : List Rat) : Option Rat := means.get? 2

/-- From keithley2450.py lines 602-605: `max_resistance` is
`self.maximums[2]`. -/
def max_resistance (maximums : List Rat) : Option Rat := maximums.get? 2

/-- From keithley2450.py lines 607-610: `min_resistance` is
`self.minimums[2]`. -/
def min_resistance (minimums : List Rat) : Option Rat := minimums.get? 2

/-- From keithley2450.py lines 612-615: `std_resistance` is
`self.standard_devs[2]`. -/
def std_resistance (standard_devs : List Rat) : Option Rat := standard_devs.get? 2

end Keithley2450

namespace Keithley6221

/-- From keithley6221.py lines 91-99: the `source_enabled` control —
query `OUTPut?`, write template `OUTPut %d`, validator
`strict_discrete_set` over the map's keys, value map `{True: 1, False: 0}`. -/
def source_enabled : Control :=
  { query := "OUTPut?"
    write_template := "OUTPut %d"
    validator := strict_discrete_setV [.bool true, .bool false]
    value_map := [(.bool true, .int 1), (.bool false, .int 0)]
    map_values := true }

/-- From keithley6221.py lines 146-153: the `source_range` control —
write template `:SOUR:CURR:RANG:AUTO 0;:SOUR:CURR:RANG %g`, validator
`truncated_range` over `[-0.105, 0.105]`. -/
def source_range : Control :=
  { query := ":SOUR:CURR:RANG?"
    write_template := ":SOUR:CURR:RANG:AUTO 0;:SOUR:CURR:RANG %g"
    validator := truncated_rangeV (-0.105) 0.105
    value_map := []
    map_values := false }

/-- From keithley6221.py lines 194-199: the validator of the
`delta_delay` control — `joined_validators(strict_range,
strict_discrete_set)` with domains `([0, 9999.999], ["INF"])`. -/
def delta_delay_validator : PyVal → Except PyErr PyVal :=
  joined_validators (strict_rangeV 0 9999.999)
    (strict_discrete_setV [.str "INF"])

/-- From keithley6221.py lines 194-199: the `delta_delay` control itself. -/
def delta_delay : Control :=
  { query := ":SOUR:DELT:DELay?"
    write_template := ":SOUR:DELT:DELay %s"
    validator := delta_delay_validator
    value_map := []
    map_values := false }

/-- From keithley6221.py lines 274-289: the user-value → wire-token map of
the `waveform_function` control. -/
def waveform_function_map : List (PyVal × PyVal) :=
  [(.str "sine", .str "SIN"), (.str "ramp", .str "RAMP"),
   (.str "square", .str "SQU"), (.str "arbitrary1", .str "ARB1"),
   (.str "arbitrary2", .str "ARB2"), (.str "arbitrary3", .str "ARB3"),
   (.str "arbitrary4", .str "ARB4")]

/-- From keithley6221.py lines 274-289: the `waveform_function` control —
query `:SOUR:WAVE:FUNC?`, write template `:SOUR:WAVE:FUNC %s`, no
validator, mapped values. -/
def waveform_function : Control :=
  { query := ":SOUR:WAVE:FUNC?"
    write_template := ":SOUR:WAVE:FUNC %s"
    validator := no_validator
    value_map := waveform_function_map
    map_values := true }

/-- From keithley6221.py lines 592-600: the read-only `measurement_events`
measurement, query `:STAT:MEAS?`, `cast=int`. -/
def measurement_events : Measurement := { query := ":STAT:MEAS?" }

/-- From keithley6221.py lines 486-494: `set_timed_arm(interval)` —
raises `RangeException` when `interval > 99999.99 or interval < 0.001`,
otherwise issues the single write `":ARM:SOUR TIM;:ARM:TIM %.3f" %
interval`.  On the error path nothing is written. -/
def set_timed_arm (interval : Rat) : Except PyErr (List String) :=
  if 99999.99 < interval ∨ interval < 0.001 then .error .rangeException
  else .ok [formatInto ":ARM:SOUR TIM;:ARM:TIM %.3f" (.num interval)]

/-- From keithley6221.py lines 382-414: `define_arbitary_waveform
(datapoints, location)` — after the argument checks (a `datapoints` list
of at most 100 points, every point in `[-1, 1]`, `location` in
`{1, 2, 3, 4}`; any failure raises `ValueError` with nothing written),
the method writes the data-definition command, then the copy command,
then selects `waveform_function = "arbitrary%d" % location` through its
control descriptor.  The `isinstance(datapoints, (list, np.ndarray))`
check holds by construction in this typed embedding; the elements'
Python `str(x)` text is modelled by `formatG`. -/
def define_arbitary_waveform (datapoints : List Rat) (location : Int)
    (d : Device) : Except PyErr Unit × Device :=
  if 100 < datapoints.length then
    (.error (.valueError "datapoints cannot be longer than 100 points"), d)
  else if ¬ datapoints.all (fun x => decide (-1 ≤ x ∧ x ≤ 1)) then
    (.error (.valueError "all data points must be between -1 and 1"), d)
  else if location ∉ ([1, 2, 3, 4] : List Int) then
    (.error (.valueError "location must be in [1, 2, 3, 4]"), d)
  else
    let data := String.intercalate ", " (datapoints.map formatG)
    let d1 := d.push (formatInto ":SOUR:WAVE:ARB:DATA %s" (.str data))
    let d2 := d1.push (formatInto ":SOUR:WAVE:ARB:COPY %d" (.int location))
    controlSet waveform_function (.str ("arbitrary" ++ toString location)) d2

/-- The data-definition command `":SOUR:WAVE:ARB:DATA %s" % data` issued
by `define_arbitary_waveform` (keithley6221.py line 408). -/
def arbDataCmd (datapoints : List Rat) : String :=
  formatInto ":SOUR:WAVE:ARB:DATA %s"
    (.str (String.intercalate ", " (datapoints.map formatG)))

/-- The copy command `":SOUR:WAVE:ARB:COPY %d" % location` issued by
`define_arbitary_waveform` (keithley6221.py line 411). -/
def arbCopyCmd (location : Int) : String :=
  formatInto ":SOUR:WAVE:ARB:COPY %d" (.int location)

/-- The waveform-selection command produced by setting
`waveform_function = "arbitrary%d" % location` (keithley6221.py line
414): the user value maps to the `ARB<location>` wire token, formatted
into `:SOUR:WAVE:FUNC %s`. -/
def arbFuncCmd (location : Int) : String :=
  formatInto ":SOUR:WAVE:FUNC %s" (.str ("ARB" ++ toString location))

end Keithley6221

/-! ## Theorems -/

/-- Bridge from a raw-fraction rational to division form, used to rewrite
decimal literals into kernel-computable normal form. -/
theorem mkq_eq (n : Int) (d : Nat) (h1 : d ≠ 0) (h2 : n.natAbs.Coprime d) :
    (Rat.mk' n d h1 h2 : Rat) = (n : Rat) / (d : Rat) := by
  rw [Rat.mk'_eq_divInt, Rat.divInt_eq_div]
  norm_num

/-- A successful forward lookup comes from one of the map's pairs. -/
theorem lookupFwd_mem (m : List (PyVal × PyVal)) (u tok : PyVal)
    (h : lookupFwd m u = some tok) : (u, tok) ∈ m := by
  induction m with
  | nil => simp [lookupFwd] at h
  | cons p rest ih =>
    rcases p with ⟨a, b⟩
    simp only [lookupFwd] at h
    by_cases ha : a = u
    · rw [if_pos ha] at h
      have hb : b = tok := Option.some.inj h
      subst ha; subst hb
      exact List.mem_cons_self _ _
    · rw [if_neg ha] at h
      exact List.mem_cons_of_mem _ (ih h)

/-- When the wire tokens of a value map are pairwise distinct, the
inverse lookup of a forward-mapped token recovers the user value. -/
theorem lookupInv_of_fwd (m : List (PyVal × PyVal)) (u tok : PyVal)
    (hsnd : (m.map Prod.snd).Nodup) (hfwd : lookupFwd m u = some tok) :
    lookupInv m tok = some u := by
  induction m with
  | nil => simp [lookupFwd] at hfwd
  | cons p rest ih =>
    rcases p with ⟨a, b⟩
    simp only [List.map_cons, List.nodup_cons] at hsnd
    simp only [lookupFwd] at hfwd
    simp only [lookupInv]
    by_cases ha : a = u
    · rw [if_pos ha] at hfwd
      have hb : b = tok := Option.some.inj hfwd
      rw [if_pos hb, ha]
    · rw [if_neg ha] at hfwd
      have hmem : tok ∈ rest.map Prod.snd :=
        List.mem_map_of_mem Prod.snd (lookupFwd_mem rest u tok hfwd)
      have hb : b ≠ tok := fun hbt => hsnd.1 (hbt ▸ hmem)
      rw [if_neg hb]
      exact ih hsnd.2 hfwd

/-- C1: for the Keithley 2450, assigning `source_current_range = 1.05`
sends to the instrument exactly one write whose text is the two-command
sequence `:SOUR:CURR:RANG:AUTO 0;:SOUR:CURR:RANG 1.05` — the
auto-range-disable directive first, then the explicit range value
formatted `%g`-style with no trailing zero padding, joined by the `;`
separator in that fixed order. -/
theorem keithley2450_source_current_range_set_exact_write :
    controlSet Keithley2450.source_current_range (.num 1.05)
      { replies := [], writes := [] } =
    (.ok (), { replies := [],
               writes := [":SOUR:CURR:RANG:AUTO 0;:SOUR:CURR:RANG 1.05"] }) := by
  have h1 : (1.05 : Rat) = Rat.mk' 21 20 := by rw [mkq_eq]; norm_num
  simp only [Keithley2450.source_current_range]
  rw [h1]
  decide

/-- C2: for the Keithley 2450, `ramp_to_current(target_current = 0.005,
steps = 3, pause = 0)` with a presently read source current of `0.0`
issues exactly 3 set-current commands, with values `0.0`, `0.0025` and
`0.005` in that order — the points are linearly interpolated between the
read start value and the target, inclusive of both endpoints. -/
theorem keithley2450_ramp_to_current_three_steps :
    Keithley2450.ramp_to_current 0 0.005 3 =
      [":SOUR:CURR:LEV 0", ":SOUR:CURR:LEV 0.0025", ":SOUR:CURR:LEV 0.005"] := by
  have h : linspace 0 0.005 3 = [0, Rat.mk' 1 400, Rat.mk' 1 200] := by
    unfold linspace
    rw [show List.range 3 = [0, 1, 2] from rfl]
    simp only [List.map]
    norm_num [mkq_eq]
  unfold Keithley2450.ramp_to_current
  rw [h]
  decide

/-- C3: for every value `v` and bounds `low ≤ high`, `truncated_range`
never fails and returns a value inside `[low, high]`; a value already in
the interval passes through unchanged, and a value outside is clamped to
the nearest bound (`low` below, `high` above). -/
theorem truncated_range_clamps (v low high : Rat) (h : low ≤ high) :
    (low ≤ truncated_range v low high ∧ truncated_range v low high ≤ high) ∧
    (low ≤ v → v ≤ high → truncated_range v low high = v) ∧
    (v < low → truncated_range v low high = low) ∧
    (high < v → truncated_range v low high = high) := by
  unfold truncated_range
  split_ifs with h1 h2 <;>
    refine ⟨⟨?_, ?_⟩, fun hl hh => ?_, fun hl => ?_, fun hh => ?_⟩ <;>
    first | rfl | linarith

/-- Witness for C3 at the bounds `[0, 2]`: `5` clamps to `2`, `1` passes
through, `-3` clamps to `0`. -/
theorem truncated_range_clamps_witness :
    (0 : Rat) ≤ 2 ∧ truncated_range 5 0 2 = 2 ∧ truncated_range 1 0 2 = 1 ∧
      truncated_range (-3) 0 2 = 0 :=
  ⟨by decide,
   (truncated_range_clamps 5 0 2 (by decide)).2.2.2 (by decide),
   (truncated_range_clamps 1 0 2 (by decide)).2.1 (by decide) (by decide),
   (truncated_range_clamps (-3) 0 2 (by decide)).2.2.1 (by decide)⟩

/-- C4: the composite validator of the Keithley 6221 `delta_delay`
setter, `joined_validators(strict_range, strict_discrete_set)` with
domains `([0, 9999.999], ["INF"])`, accepts `5000.0` (via the range
validator) and `"INF"` (via the discrete-set validator), rejects both
`10000.0` and the lowercase `"inf"`; in general the joined validator
tries the first validator, retries with the second on failure, and fails
only when both constituent validators fail. -/
theorem delta_delay_joined_validators_spec :
    Keithley6221.delta_delay_validator (.num 5000) = .ok (.num 5000) ∧
    Keithley6221.delta_delay_validator (.str "INF") = .ok (.str "INF") ∧
    Keithley6221.delta_delay_validator (.num 10000) = .error .validationError ∧
    Keithley6221.delta_delay_validator (.str "inf") = .error .validationError ∧
    (∀ f g v x, f v = .ok x → joined_validators f g v = .ok x) ∧
    (∀ f g v e, f v = .error e → joined_validators f g v = g v) ∧
    (∀ f g v e, joined_validators f g v = .error e →
      (∃ e1, f v = .error e1) ∧ g v = .error e) := by
  refine ⟨?_, by decide, ?_, by decide, ?_, ?_, ?_⟩
  · have hr : strict_rangeV 0 9999.999 (.num 5000) = .ok (.num 5000) := by
      simp only [strict_rangeV, strict_range]
      rw [if_pos (by norm_num)]
      rfl
    simp only [Keithley6221.delta_delay_validator, joined_validators, hr]
  · have hr : strict_rangeV 0 9999.999 (.num 10000) = .error .validationError := by
      simp only [strict_rangeV, strict_range]
      rw [if_neg (by norm_num)]
      rfl
    simp only [Keithley6221.delta_delay_validator, joined_validators, hr]
    decide
  · intro f g v x h; simp [joined_validators, h]
  · intro f g v e h; simp [joined_validators, h]
  · intro f g v e h
    unfold joined_validators at h
    cases hf : f v with
    | ok x => rw [hf] at h; exact absurd h (by simp)
    | error e1 => rw [hf] at h; exact ⟨⟨e1, rfl⟩, h⟩

/-- C5: for every value `v` and finite set `allowed`,
`strict_discrete_set` fails with `ValidationError` whenever `v` is not a
member of `allowed`, and returns `v` unchanged whenever it is. -/
theorem strict_discrete_set_spec {α : Type} [DecidableEq α] (v : α)
    (allowed : List α) :
    (v ∈ allowed → strict_discrete_set v allowed = .ok v) ∧
    (v ∉ allowed → strict_discrete_set v allowed = .error .validationError) := by
  unfold strict_discrete_set
  constructor <;> intro h <;> simp [h]

/-- Witness for C5 on the driver's own domains: the filter-type set
`['REP', 'MOV']` accepts a member, the `wires` key set `{4, 2}` rejects a
non-member. -/
theorem strict_discrete_set_spec_witness :
    ("REP" ∈ ["REP", "MOV"] ∧
      strict_discrete_set "REP" ["REP", "MOV"] = .ok "REP") ∧
    ((5 : Int) ∉ ([4, 2] : List Int) ∧
      strict_discrete_set (5 : Int) [4, 2] = .error .validationError) :=
  ⟨⟨by decide, (strict_discrete_set_spec "REP" ["REP", "MOV"]).1 (by decide)⟩,
   ⟨by decide, (strict_discrete_set_spec (5 : Int) [4, 2]).2 (by decide)⟩⟩

/-- C6: for a `control` descriptor with a value map whose wire tokens are
pairwise distinct, setting a mapped user value `u` writes exactly the
token-formatted command, and — provided the device echoes the written
wire token back — getting the property returns `u` again: the set path
translates through the map, the get path applies the inverse map. -/
theorem control_value_map_roundtrip (c : Control) (u tok : PyVal)
    (reply : String)
    (hmv : c.map_values = true)
    (hval : c.validator u = .ok u)
    (hfwd : lookupFwd c.value_map u = some tok)
    (hsnd : (c.value_map.map Prod.snd).Nodup)
    (hecho : parseReply reply = tok) :
    controlSet c u { replies := [reply], writes := [] } =
      (.ok (), { replies := [reply],
                 writes := [formatInto c.write_template tok] }) ∧
    (controlGet c (controlSet c u { replies := [reply], writes := [] }).2).1 =
      .ok u := by
  have hset : controlSet c u { replies := [reply], writes := [] } =
      (.ok (), { replies := [reply],
                 writes := [formatInto c.write_template tok] }) := by
    simp only [controlSet, hval, hmv, hfwd]
    rfl
  refine ⟨hset, ?_⟩
  rw [hset]
  have hinv := lookupInv_of_fwd c.value_map u tok hsnd hfwd
  simp [controlGet, Device.query, hecho, hmv, hinv]

/-- Witness for C6 on the 2450's `source_current_delay_auto` descriptor
(map `{True: 1, False: 0}`): the map is injective in both directions and
both `True` and `False` round-trip through an echoing device. -/
theorem control_value_map_roundtrip_witness :
    ((Keithley2450.source_current_delay_auto.value_map.map Prod.fst).Nodup ∧
     (Keithley2450.source_current_delay_auto.value_map.map Prod.snd).Nodup) ∧
    (controlGet Keithley2450.source_current_delay_auto
        (controlSet Keithley2450.source_current_delay_auto (.bool true)
          { replies := ["1"], writes := [] }).2).1 = .ok (.bool true) ∧
    (controlGet Keithley2450.source_current_delay_auto
        (controlSet Keithley2450.source_current_delay_auto (.bool false)
          { replies := ["0"], writes := [] }).2).1 = .ok (.bool false) :=
  ⟨⟨by decide, by decide⟩,
   (control_value_map_roundtrip Keithley2450.source_current_delay_auto
      (.bool true) (.int 1) "1" rfl rfl (by decide) (by decide) (by decide)).2,
   (control_value_map_roundtrip Keithley2450.source_current_delay_auto
      (.bool false) (.int 0) "0" rfl rfl (by decide) (by decide) (by decide)).2⟩

/-- C7: `Keithley6221.set_timed_arm(interval)` raises `RangeException`
before sending any command for every interval outside the documented
limit (`interval < 0.001` or `interval > 99999.99`); for every interval
inside the limit it raises nothing and sends exactly one arm command. -/
theorem set_timed_arm_range_check (interval : Rat) :
    ((interval < 0.001 ∨ 99999.99 < interval) →
      Keithley6221.set_timed_arm interval = .error .rangeException) ∧
    (0.001 ≤ interval → interval ≤ 99999.99 →
      Keithley6221.set_timed_arm interval =
        .ok [formatInto ":ARM:SOUR TIM;:ARM:TIM %.3f" (.num interval)]) := by
  unfold Keithley6221.set_timed_arm
  constructor
  · intro h
    rcases h with h | h
    · rw [if_pos (Or.inr h)]
    · rw [if_pos (Or.inl h)]
  · intro h1 h2
    rw [if_neg]
    push_neg
    exact ⟨h2, h1⟩

/-- Witness for C7: `0` seconds is rejected with `RangeException` and
nothing written; `1` second produces exactly the single arm command. -/
theorem set_timed_arm_range_check_witness :
    Keithley6221.set_timed_arm 0 = .error .rangeException ∧
    Keithley6221.set_timed_arm 1 = .ok [":ARM:SOUR TIM;:ARM:TIM 1.000"] := by
  constructor
  · exact (set_timed_arm_range_check 0).1 (Or.inl (by norm_num))
  · have h := (set_timed_arm_range_check 1).2 (by norm_num) (by norm_num)
    rw [h]
    rfl

/-- C8: for every accessor produced by the measurement factory —
including the 2450's `current` and the 6221's `measurement_events` — any
attempt to set the property fails with `ReadOnlyError` and sends no
command to the instrument. -/
theorem measurement_set_read_only (m : Measurement) (v : PyVal) (d : Device) :
    measurementSet m v d = (.error .readOnlyError, d) ∧
    (measurementSet m v d).2.writes = d.writes ∧
    measurementSet Keithley2450.current v d = (.error .readOnlyError, d) ∧
    measurementSet Keithley6221.measurement_events v d =
      (.error .readOnlyError, d) :=
  ⟨rfl, rfl, rfl, rfl⟩

/-- C9: the 2450's buffer-statistics convenience properties index every
statistics sequence positionally in the fixed order
`[voltage, current, resistance]`: the voltage variants return element 0,
the current variants element 1, the resistance variants element 2, for
each of the mean/maximum/minimum/standard-deviation aggregates. -/
theorem buffer_statistics_positional_order (a b c : Rat) (t : List Rat) :
    (Keithley2450.mean_voltage (a :: b :: c :: t) = some a ∧
     Keithley2450.max_voltage (a :: b :: c :: t) = some a ∧
     Keithley2450.min_voltage (a :: b :: c :: t) = some a ∧
     Keithley2450.std_voltage (a :: b :: c :: t) = some a) ∧
    (Keithley2450.mean_current (a :: b :: c :: t) = some b ∧
     Keithley2450.max_current (a :: b :: c :: t) = some b ∧
     Keithley2450.min_current (a :: b :: c :: t) = some b ∧
     Keithley2450.std_current (a :: b :: c :: t) = some b) ∧
    (Keithley2450.mean_resistance (a :: b :: c :: t) = some c ∧
     Keithley2450.max_resistance (a :: b :: c :: t) = some c ∧
     Keithley2450.min_resistance (a :: b :: c :: t) = some c ∧
     Keithley2450.std_resistance (a :: b :: c :: t) = some c) :=
  ⟨⟨rfl, rfl, rfl, rfl⟩, ⟨rfl, rfl, rfl, rfl⟩, ⟨rfl, rfl, rfl, rfl⟩⟩

/-- C10: `Keithley6221.define_arbitary_waveform(datapoints, location)`
validates its arguments before sending any command — with nothing
written it raises `ValueError` when there are more than 100 points, when
any point lies outside `[-1, 1]`, or when `location` is not in
`{1, 2, 3, 4}`; when all checks pass it sends the data-definition
command, then the copy command, then the arbitrary-waveform function
selection, in that order. -/
theorem define_arbitary_waveform_spec (datapoints : List Rat)
    (location : Int) (d : Device) :
    (100 < datapoints.length →
      Keithley6221.define_arbitary_waveform datapoints location d =
        (.error (.valueError "datapoints cannot be longer than 100 points"), d)) ∧
    (datapoints.length ≤ 100 → ¬(∀ x ∈ datapoints, -1 ≤ x ∧ x ≤ 1) →
      Keithley6221.define_arbitary_waveform datapoints location d =
        (.error (.valueError "all data points must be between -1 and 1"), d)) ∧
    (datapoints.length ≤ 100 → (∀ x ∈ datapoints, -1 ≤ x ∧ x ≤ 1) →
      location ∉ ([1, 2, 3, 4] : List Int) →
      Keithley6221.define_arbitary_waveform datapoints location d =
        (.error (.valueError "location must be in [1, 2, 3, 4]"), d)) ∧
    (datapoints.length ≤ 100 → (∀ x ∈ datapoints, -1 ≤ x ∧ x ≤ 1) →
      location ∈ ([1, 2, 3, 4] : List Int) →
      Keithley6221.define_arbitary_waveform datapoints location d =
        (.ok (), ((d.push (Keithley6221.arbDataCmd datapoints)).push
          (Keithley6221.arbCopyCmd location)).push
            (Keithley6221.arbFuncCmd location))) := by
  refine ⟨?_, ?_, ?_, ?_⟩
  · intro h
    unfold Keithley6221.define_arbitary_waveform
    rw [if_pos h]
  · intro h1 h2
    have hall : datapoints.all (fun x => decide (-1 ≤ x ∧ x ≤ 1)) = false := by
      cases hb : datapoints.all (fun x => decide (-1 ≤ x ∧ x ≤ 1)) with
      | true =>
        exact absurd
          (fun x hx => of_decide_eq_true (List.all_eq_true.mp hb x hx)) h2
      | false => rfl
    have hcond :
        ¬((datapoints.all fun x => decide (-1 ≤ x ∧ x ≤ 1)) = true) := by
      rw [hall]; exact Bool.false_ne_true
    unfold Keithley6221.define_arbitary_waveform
    rw [if_neg (not_lt.mpr h1), if_pos hcond]
  · intro h1 h2 h3
    have hall : datapoints.all (fun x => decide (-1 ≤ x ∧ x ≤ 1)) = true :=
      List.all_eq_true.mpr fun x hx => decide_eq_true (h2 x hx)
    unfold Keithley6221.define_arbitary_waveform
    rw [if_neg (not_lt.mpr h1), if_neg (not_not_intro hall), if_pos h3]
  · intro h1 h2 h3
    have hall : datapoints.all (fun x => decide (-1 ≤ x ∧ x ≤ 1)) = true :=
      List.all_eq_true.mpr fun x hx => decide_eq_true (h2 x hx)
    unfold Keithley6221.define_arbitary_waveform
    rw [if_neg (not_lt.mpr h1), if_neg (not_not_intro hall),
      if_neg (not_not_intro h3)]
    fin_cases h3 <;> rfl

/-- Witness for C10: three in-range points stored to location 2 pass all
checks and produce exactly the data, copy and function-selection
commands in order. -/
theorem define_arbitary_waveform_spec_witness :
    (([0, 1, -1] : List Rat).length ≤ 100 ∧
      (∀ x ∈ ([0, 1, -1] : List Rat), -1 ≤ x ∧ x ≤ 1) ∧
      (2 : Int) ∈ ([1, 2, 3, 4] : List Int)) ∧
    Keithley6221.define_arbitary_waveform [0, 1, -1] 2
        { replies := [], writes := [] } =
      (.ok (), { replies := [],
                 writes := [":SOUR:WAVE:ARB:DATA 0, 1, -1",
                            ":SOUR:WAVE:ARB:COPY 2",
                            ":SOUR:WAVE:FUNC ARB2"] }) := by
  refine ⟨⟨by decide, by decide, by decide⟩, ?_⟩
  have h := (define_arbitary_waveform_spec [0, 1, -1] 2
    { replies := [], writes := [] }).2.2.2 (by decide) (by decide) (by decide)
  rw [h]
  rfl
